import Mathlib

/-
Verification of the quirks-mode SVG normalization and measurement pipeline
(src/svg-renderer.js) against its natural-language specification.

The DOM tree is embedded as an inductive `Node` (elements with ordered
attribute lists and ordered children, plus text nodes).  Browser-provided
capabilities (DOMParser, XMLSerializer, getBBox, number-to-string coercion)
are modelled as injected function parameters, matching the spec's view of
them as external collaborators.  Numeric attribute values are rationals.
-/

namespace SvgQuirks

/-- XML-like DOM node: an element has a tag name, an ordered list of
attribute name/value pairs, and an ordered list of children; a text node
carries its character data. -/
inductive Node where
  | element : String → List (String × String) → List Node → Node
  | text : String → Node

/-- Reads an attribute by name from an ordered attribute list, returning the
first binding; absence is `none`, mirroring DOM `getAttribute` returning
null (an empty string value is `some ""`, distinct from absence). -/
def getAttrL : List (String × String) → String → Option String
  | [], _ => none
  | (k1, v) :: ps, k => if k1 = k then some v else getAttrL ps k

/-- DOM `setAttribute`: replaces the value of the first binding of the key
in place, or appends a new binding at the end when the key is absent. -/
def setAttrL : List (String × String) → String → String → List (String × String)
  | [], k, v => [(k, v)]
  | (k1, v1) :: ps, k, v => if k1 = k then (k, v) :: ps else (k1, v1) :: setAttrL ps k v

/-- DOM `removeAttribute`: removes every binding of the key. -/
def removeAttrL : List (String × String) → String → List (String × String)
  | [], _ => []
  | (k1, v1) :: ps, k => if k1 = k then removeAttrL ps k else (k1, v1) :: removeAttrL ps k

/-- JavaScript string truthiness of a `getAttribute` result: the attribute
must be present with a non-empty value. -/
def truthyOpt : Option String → Bool
  | some s => if s = "" then false else true
  | none => false

/-- Whitespace characters trimmed by JavaScript `Number` conversion. -/
def isJsSpace (c : Char) : Bool :=
  if c = ' ' then true else if c = '\t' then true else
  if c = '\n' then true else if c = '\r' then true else false

/-- True when every character in the list is a decimal digit. -/
def allDigits (cs : List Char) : Bool := cs.all (fun c => c.isDigit)

/-- Numeric value of a list of decimal digit characters. -/
def natOfDigits (cs : List Char) : Nat :=
  cs.foldl (fun a c => a * 10 + (c.toNat - 48)) 0

/-- Parses an unsigned decimal literal (integer part, optional dot, optional
fraction part; at least one digit overall), as accepted by JavaScript
`Number` on plain decimal strings.  `none` models NaN. -/
def parseUnsignedDecimal (cs : List Char) : Option ℚ :=
  let intPart := cs.takeWhile (fun c => ¬(c = '.'))
  let rest := cs.dropWhile (fun c => ¬(c = '.'))
  match rest with
  | [] =>
      if intPart.isEmpty then none
      else if allDigits intPart then some (natOfDigits intPart) else none
  | _ :: frac =>
      if frac.contains '.' then none
      else if intPart.isEmpty ∧ frac.isEmpty then none
      else if allDigits intPart ∧ allDigits frac then
        some ((natOfDigits intPart : ℚ) + (natOfDigits frac : ℚ) / ((10 : ℚ) ^ frac.length))
      else none

/-- JavaScript `Number(string)` conversion, on the decimal fragment the
repository's attribute values use: whitespace is trimmed, the empty string
converts to 0, an optional sign precedes a decimal literal; `none` models
NaN (exponent, hexadecimal and Infinity forms are not used by the code's
inputs and are not modelled). -/
def jsNumber (s : String) : Option ℚ :=
  let t0 := s.toList.dropWhile isJsSpace
  let t := (t0.reverse.dropWhile isJsSpace).reverse
  match t with
  | [] => some 0
  | '+' :: rest => parseUnsignedDecimal rest
  | '-' :: rest => (parseUnsignedDecimal rest).map (fun q => -q)
  | _ => parseUnsignedDecimal t

/-- JavaScript `Number(s) || 0`: NaN collapses to 0 (and a parsed 0 stays
0), matching line 161 of svg-renderer.js. -/
def jsNumberOr0 (s : String) : ℚ := (jsNumber s).getD 0

/-- JavaScript `Math.max` on two rationals (NaN does not arise at the call
sites); written with an explicit comparison so that concrete instances
evaluate by kernel reduction. -/
def jsMax (a b : ℚ) : ℚ := if a ≤ b then b else a

/-- JavaScript `String.split` with separator the newline character: empty
fields are preserved, and the result is never empty. -/
def splitCharsOnNewline : List Char → List (List Char)
  | [] => [[]]
  | c :: cs =>
      match splitCharsOnNewline cs with
      | [] => [[]]
      | l :: ls => if c = '\n' then [] :: l :: ls else (c :: l) :: ls

/-- JavaScript `text.split('\n')` on a string. -/
def splitOnNewlines (s : String) : List String :=
  (splitCharsOnNewline s.toList).map (fun l => String.mk l)

/-- True exactly on element nodes (DOM nodeType checking). -/
def isElementNode : Node → Bool
  | Node.element _ _ _ => true
  | Node.text _ => false

mutual

/-- DOM `textContent`: concatenation of all descendant text data in
document order. -/
def textContent : Node → String
  | Node.text s => s
  | Node.element _ _ cs => textContentList cs

/-- DOM `textContent` of a child list. -/
def textContentList : List Node → String
  | [] => ""
  | c :: cs => textContent c ++ textContentList cs

end

/-- DOM `childElementCount`: number of element children (text children do
not count). -/
def childElementCount : List Node → Nat
  | [] => 0
  | c :: cs => (if isElementNode c then 1 else 0) + childElementCount cs

/-- Modelled from the spec: `createSVGElement` (font-inliner.js, not under
src/) creates a fresh SVG element with the given tag and no attributes or
children; svg-renderer.js uses it only to synthesize the per-line nodes of
section 4.2 step 5.  The tspan built at lines 131-134 gets attributes
x="0" and dy="1.2em" in that order and the line's text as its content
(setting `textContent` to the empty string leaves no child text node). -/
def mkTspan (line : String) : Node :=
  Node.element "tspan" [("x", "0"), ("dy", "1.2em")]
    (if line = "" then [] else [Node.text line])

/-- Attribute rewriting of one text element, svg-renderer.js lines 110-121:
remove `x` and `y`, force `alignment-baseline` to `text-before-edge`, and
default `font-size` to 14 and `font-family` to Helvetica when the existing
value is absent or empty (JavaScript truthiness of `getAttribute`). -/
def quirkAttrs (a : List (String × String)) : List (String × String) :=
  let a1 := removeAttrL (removeAttrL a "x") "y"
  let a2 := setAttrL a1 "alignment-baseline" "text-before-edge"
  let a3 := if truthyOpt (getAttrL a2 "font-size") then a2
            else setAttrL a2 "font-size" "14"
  let a4 := if truthyOpt (getAttrL a3 "font-family") then a3
            else setAttrL a3 "font-family" "Helvetica"
  a4

mutual

/-- The text-quirks pass of `_transformText` (svg-renderer.js lines
95-138), expressed recursively.  The JavaScript collects every `text`
element in pre-order and then mutates each: attribute quirks always, and
the line-break fix (replace the children by one tspan per newline-separated
line) only when the element has non-empty text content and zero element
children.  The recursive form is equivalent: when the line-break branch is
taken the element had only text children, so no descendant text element
existed, and the freshly created tspans were not in the collected list. -/
def transformTextNode : Node → Node
  | Node.text s => Node.text s
  | Node.element n a cs =>
      if n = "text" then
        let t := textContentList cs
        if ¬(t = "") ∧ childElementCount cs = 0 then
          Node.element n (quirkAttrs a) ((splitOnNewlines t).map mkTspan)
        else
          Node.element n (quirkAttrs a) (transformTextList cs)
      else Node.element n a (transformTextList cs)

/-- The text-quirks pass on a list of sibling nodes. -/
def transformTextList : List Node → List Node
  | [] => []
  | c :: cs => transformTextNode c :: transformTextList cs

end

/-- Modelled from the spec: `convertFonts` (font-converter.js, not under
src/) is the font-resolution collaborator of section 4.2 step 6, an
external component that resolves and collects font references; for the
tree-shape and attribute properties specified here it is modelled as the
identity on the tree. -/
def convertFonts (t : Node) : Node := t

/-- `_transformText` applied to the root tag: the quirks pass over every
text element followed by the font-resolution collaborator. -/
def transformText (root : Node) : Node := convertFonts (transformTextNode root)

mutual

/-- The accumulator loop of `_findLargestStrokeWidth` (svg-renderer.js
lines 153-168): on each element, when the `stroke` attribute is truthy take
the max with 1, and when `stroke-width` is truthy take the max with
`Number(value) || 0`; then recurse over the children.  Text nodes have no
`getAttribute` and contribute nothing. -/
def collectStrokeWidths (largest : ℚ) : Node → ℚ
  | Node.text _ => largest
  | Node.element _ a cs =>
      let l1 := if truthyOpt (getAttrL a "stroke") then jsMax largest 1 else largest
      let l2 := if truthyOpt (getAttrL a "stroke-width") then
          jsMax l1 (jsNumberOr0 ((getAttrL a "stroke-width").getD ""))
        else l1
      collectStrokeWidthsList l2 cs

/-- The accumulator loop over a child list. -/
def collectStrokeWidthsList (largest : ℚ) : List Node → ℚ
  | [] => largest
  | c :: cs => collectStrokeWidthsList (collectStrokeWidths largest c) cs

end

/-- `_findLargestStrokeWidth` (svg-renderer.js lines 151-171). -/
def findLargestStrokeWidth (rootNode : Node) : ℚ := collectStrokeWidths 0 rootNode

/-- Spec-side formula, following the words of the claim: an element
contributes 1 if a `stroke` attribute is present and no explicit
`stroke-width`; else the numeric value of `stroke-width` if present and it
parses to a non-negative number; else 0. -/
def claimContribution (a : List (String × String)) : ℚ :=
  if (getAttrL a "stroke").isSome ∧ ¬(getAttrL a "stroke-width").isSome then 1
  else
    match getAttrL a "stroke-width" with
    | some s =>
        match jsNumber s with
        | some q => if 0 ≤ q then q else 0
        | none => 0
    | none => 0

mutual

/-- Spec-side formula, following the words of the claim: the maximum of
`claimContribution` over all elements of the tree, the root included. -/
def claimStrokeMax : Node → ℚ
  | Node.text _ => 0
  | Node.element _ a cs => jsMax (claimContribution a) (claimStrokeMaxList cs)

/-- Spec-side maximum over a list of sibling subtrees. -/
def claimStrokeMaxList : List Node → ℚ
  | [] => 0
  | c :: cs => jsMax (claimStrokeMax c) (claimStrokeMaxList cs)

end

/-- Amended per-element contribution: the larger of (1 when a `stroke`
attribute with a non-empty value is present, else 0) and (when a
`stroke-width` attribute with a non-empty value is present, its JavaScript
numeric value with NaN as 0, else 0).  A negative parsed value loses to
the other operand, which is never negative. -/
def amendedContribution (a : List (String × String)) : ℚ :=
  jsMax (if truthyOpt (getAttrL a "stroke") then 1 else 0)
      (if truthyOpt (getAttrL a "stroke-width") then
        jsNumberOr0 ((getAttrL a "stroke-width").getD "") else 0)

mutual

/-- Amended spec formula: maximum of `amendedContribution` over all
elements of the tree, the root included. -/
def amendedStrokeMax : Node → ℚ
  | Node.text _ => 0
  | Node.element _ a cs => jsMax (amendedContribution a) (amendedStrokeMaxList cs)

/-- Amended maximum over a list of sibling subtrees. -/
def amendedStrokeMaxList : List Node → ℚ
  | [] => 0
  | c :: cs => jsMax (amendedStrokeMax c) (amendedStrokeMaxList cs)

end

/-- Parsed XML document: its list of top-level child nodes, as produced by
the injected DOMParser model. -/
structure XmlDoc where
  childNodes : List Node

/-- DOM `documentElement`: the first element among the document's child
nodes (a placeholder empty element when there is none; the code only
reaches it after the child-count check). -/
def XmlDoc.documentElement (d : XmlDoc) : Node :=
  (d.childNodes.find? isElementNode).getD (Node.element "" [] [])

/-- DOM `localName` of a node (text nodes have none). -/
def Node.localName : Node → String
  | Node.element n _ _ => n
  | Node.text _ => ""

/-- Node-level `getAttribute`. -/
def nodeGetAttr : Node → String → Option String
  | Node.element _ a _, k => getAttrL a k
  | Node.text _, _ => none

/-- Node-level `setAttribute` (no-op on text nodes, which do not occur at
the call sites). -/
def nodeSetAttr : Node → String → String → Node
  | Node.element n a cs, k, v => Node.element n (setAttrL a k v) cs
  | Node.text s, _, _ => Node.text s

/-- Replaces the first element among the child nodes, modelling that the
mutable `documentElement` reference and the owning document alias the same
tree in the DOM. -/
def replaceFirstElement : List Node → Node → List Node
  | [], _ => []
  | c :: cs, e => if isElementNode c then e :: cs else c :: replaceFirstElement cs e

/-- The document after its `documentElement` subtree was mutated. -/
def XmlDoc.withDocumentElement (d : XmlDoc) (e : Node) : XmlDoc :=
  XmlDoc.mk (replaceFirstElement d.childNodes e)

/-- The stored measurement record, `this._measurements`. -/
structure Measurement where
  x : ℚ
  y : ℚ
  width : ℚ
  height : ℚ
deriving DecidableEq

/-- Fatal conditions of the pipeline: `InvalidDocument` is the explicit
throw of `loadString` line 78; `MeasurementFailure` models `getBBox`
throwing inside `_transformMeasurements`. -/
inductive LoadError where
  | invalidDocument
  | measurementFailure
deriving DecidableEq

/-- Mutable state of one `SvgRenderer` instance together with the one
shared external resource it touches: `svgDom` and `svgTag` are
`this._svgDom` / `this._svgTag`, `measurements` is `this._measurements`,
`cachedImage` is `this._cachedImage` (none models null), and `body` is the
child list of the global `document.body` to which the measurement step
temporarily attaches the tree. -/
structure RendererState where
  svgDom : XmlDoc
  svgTag : Node
  measurements : Measurement
  cachedImage : Option Unit
  body : List Node

/-- `_transformMeasurements` (svg-renderer.js lines 187-234), with the
browser capabilities injected: `serialize` is `XMLSerializer` (via
`this.toString()` without font injection), `parse` is a fresh `DOMParser`,
`numStr` is the JavaScript number-to-string coercion used by
`setAttribute` and the viewBox template string, and `oracle` is `getBBox`
on the attached tree (none models it throwing).  The returned state
carries the mutations made up to a throw; the second component is the
propagated fatal condition, if any.  The try/finally of lines 197-205
appends a span holding the tag to `document.body` and removes that exact
appended child again on both exit paths.  On success the document is
re-parsed from the serialized text, stroke compensation is applied, the
width/height/viewBox attributes are written onto the re-parsed root (which
the re-parsed document aliases), and the measurement is stored. -/
def transformMeasurements (serialize : XmlDoc → String) (parse : String → XmlDoc)
    (numStr : ℚ → String) (oracle : Node → Option Measurement)
    (st : RendererState) : RendererState × Option LoadError :=
  let svgText := serialize st.svgDom
  let bodyDuring := st.body ++ [Node.element "span" [] [st.svgTag]]
  match oracle st.svgTag with
  | none => ({ st with body := bodyDuring.dropLast }, some LoadError.measurementFailure)
  | some bbox =>
      let st1 := { st with body := bodyDuring.dropLast }
      let dom2 := parse svgText
      let tag2 := XmlDoc.documentElement dom2
      let halfStrokeWidth := findLargestStrokeWidth tag2 / 2
      let width := bbox.width + halfStrokeWidth * 2
      let height := bbox.height + halfStrokeWidth * 2
      let x := bbox.x - halfStrokeWidth
      let y := bbox.y - halfStrokeWidth
      let tag3 := nodeSetAttr (nodeSetAttr (nodeSetAttr tag2
          "width" (numStr width)) "height" (numStr height)) "viewBox"
          (numStr x ++ " " ++ numStr y ++ " " ++ numStr width ++ " " ++ numStr height)
      ({ st1 with
          svgDom := XmlDoc.withDocumentElement dom2 tag3
          svgTag := tag3
          measurements := Measurement.mk x y width height }, none)

/-- `loadString` (svg-renderer.js lines 69-85): clear the cached image,
parse the string and store the document, throw `InvalidDocument` when the
parse yields no node or the root tag is not `svg`, otherwise take the root
tag, run the text-quirks pass on it (mutating the stored document through
the alias) and run the measurement step. -/
def loadString (parse : String → XmlDoc) (serialize : XmlDoc → String)
    (numStr : ℚ → String) (oracle : Node → Option Measurement)
    (st : RendererState) (svgString : String) : RendererState × Option LoadError :=
  let st0 := { st with cachedImage := none }
  let dom := parse svgString
  let st1 := { st0 with svgDom := dom }
  if dom.childNodes.length < 1 ∨ ¬((XmlDoc.documentElement dom).localName = "svg") then
    (st1, some LoadError.invalidDocument)
  else
    let tag1 := transformText (XmlDoc.documentElement dom)
    let st2 := { st1 with
        svgTag := tag1
        svgDom := XmlDoc.withDocumentElement dom tag1 }
    transformMeasurements serialize parse numStr oracle st2

theorem jsMax_eq_max (a b : ℚ) : jsMax a b = max a b := by
  simp [jsMax, max_def]

theorem getAttrL_setAttrL_same (l : List (String × String)) (k v : String) :
    getAttrL (setAttrL l k v) k = some v := by
  induction l with
  | nil => simp [setAttrL, getAttrL]
  | cons p ps ih =>
      obtain ⟨k1, v1⟩ := p
      by_cases h : k1 = k
      · simp [setAttrL, h, getAttrL]
      · simp [setAttrL, h, getAttrL, ih]

theorem getAttrL_setAttrL_ne (l : List (String × String)) (k v k2 : String)
    (hk : ¬ k = k2) : getAttrL (setAttrL l k v) k2 = getAttrL l k2 := by
  induction l with
  | nil => simp [setAttrL, getAttrL, hk]
  | cons p ps ih =>
      obtain ⟨k1, v1⟩ := p
      by_cases h : k1 = k
      · simp [setAttrL, h, getAttrL, hk]
      · simp [setAttrL, h, getAttrL, ih]

theorem getAttrL_removeAttrL_same (l : List (String × String)) (k : String) :
    getAttrL (removeAttrL l k) k = none := by
  induction l with
  | nil => simp [removeAttrL, getAttrL]
  | cons p ps ih =>
      obtain ⟨k1, v1⟩ := p
      by_cases h : k1 = k
      · simpa [removeAttrL, h] using ih
      · simp [removeAttrL, h, getAttrL, ih]

theorem getAttrL_removeAttrL_ne (l : List (String × String)) (k k2 : String)
    (hk : ¬ k = k2) : getAttrL (removeAttrL l k) k2 = getAttrL l k2 := by
  induction l with
  | nil => simp [removeAttrL, getAttrL]
  | cons p ps ih =>
      obtain ⟨k1, v1⟩ := p
      have hk2 : ¬ k2 = k := fun hh => hk hh.symm
      by_cases h : k1 = k
      · subst h
        simp [removeAttrL, getAttrL, hk, ih]
      · by_cases h3 : k1 = k2 <;> simp [removeAttrL, h, getAttrL, h3, ih, hk2]

theorem setAttrL_of_getAttrL (l : List (String × String)) (k v : String)
    (h : getAttrL l k = some v) : setAttrL l k v = l := by
  induction l with
  | nil => simp [getAttrL] at h
  | cons p ps ih =>
      obtain ⟨k1, v1⟩ := p
      by_cases hk : k1 = k
      · simp [getAttrL, hk] at h
        simp [setAttrL, hk, h]
      · simp [getAttrL, hk] at h
        simp [setAttrL, hk, ih h]

theorem removeAttrL_of_getAttrL_none (l : List (String × String)) (k : String)
    (h : getAttrL l k = none) : removeAttrL l k = l := by
  induction l with
  | nil => simp [removeAttrL]
  | cons p ps ih =>
      obtain ⟨k1, v1⟩ := p
      by_cases hk : k1 = k
      · simp [getAttrL, hk] at h
      · simp [getAttrL, hk] at h
        simp [removeAttrL, hk, ih h]

theorem getAttrL_quirkAttrs_other (a : List (String × String)) (k : String)
    (h1 : ¬ "alignment-baseline" = k) (h2 : ¬ "font-size" = k)
    (h3 : ¬ "font-family" = k) :
    getAttrL (quirkAttrs a) k = getAttrL (removeAttrL (removeAttrL a "x") "y") k := by
  simp only [quirkAttrs]
  split_ifs <;>
    simp [getAttrL_setAttrL_ne _ _ _ _ h1, getAttrL_setAttrL_ne _ _ _ _ h2,
      getAttrL_setAttrL_ne _ _ _ _ h3]

theorem getAttrL_quirkAttrs_x (a : List (String × String)) :
    getAttrL (quirkAttrs a) "x" = none := by
  rw [getAttrL_quirkAttrs_other a "x" (by decide) (by decide) (by decide)]
  rw [getAttrL_removeAttrL_ne _ "y" "x" (by decide), getAttrL_removeAttrL_same]

theorem getAttrL_quirkAttrs_y (a : List (String × String)) :
    getAttrL (quirkAttrs a) "y" = none := by
  rw [getAttrL_quirkAttrs_other a "y" (by decide) (by decide) (by decide)]
  rw [getAttrL_removeAttrL_same]

theorem getAttrL_quirkAttrs_align (a : List (String × String)) :
    getAttrL (quirkAttrs a) "alignment-baseline" = some "text-before-edge" := by
  simp only [quirkAttrs]
  split_ifs <;>
    simp [getAttrL_setAttrL_ne _ _ _ _ (by decide : ¬ "font-size" = "alignment-baseline"),
      getAttrL_setAttrL_ne _ _ _ _ (by decide : ¬ "font-family" = "alignment-baseline"),
      getAttrL_setAttrL_same]

theorem truthyOpt_quirkAttrs_font_size (a : List (String × String)) :
    truthyOpt (getAttrL (quirkAttrs a) "font-size") = true := by
  simp only [quirkAttrs]
  split_ifs with c1 c2 <;>
    simp_all [getAttrL_setAttrL_ne _ _ _ _ (by decide : ¬ "font-family" = "font-size"),
      getAttrL_setAttrL_same, truthyOpt]

theorem truthyOpt_quirkAttrs_font_family (a : List (String × String)) :
    truthyOpt (getAttrL (quirkAttrs a) "font-family") = true := by
  simp only [quirkAttrs]
  split_ifs with c1 c2 <;> simp_all [getAttrL_setAttrL_same, truthyOpt]

theorem quirkAttrs_eq_self (b : List (String × String))
    (h1 : getAttrL b "x" = none) (h2 : getAttrL b "y" = none)
    (h3 : getAttrL b "alignment-baseline" = some "text-before-edge")
    (h4 : truthyOpt (getAttrL b "font-size") = true)
    (h5 : truthyOpt (getAttrL b "font-family") = true) :
    quirkAttrs b = b := by
  simp only [quirkAttrs]
  rw [removeAttrL_of_getAttrL_none b "x" h1]
  rw [removeAttrL_of_getAttrL_none b "y" h2]
  rw [setAttrL_of_getAttrL b _ _ h3]
  simp [h4, h5]

theorem quirkAttrs_idem (a : List (String × String)) :
    quirkAttrs (quirkAttrs a) = quirkAttrs a :=
  quirkAttrs_eq_self _ (getAttrL_quirkAttrs_x a) (getAttrL_quirkAttrs_y a)
    (getAttrL_quirkAttrs_align a) (truthyOpt_quirkAttrs_font_size a)
    (truthyOpt_quirkAttrs_font_family a)

theorem getAttrL_quirkAttrs_font_size_of_truthy (a : List (String × String)) (v : String)
    (hv : getAttrL a "font-size" = some v) (hne : ¬ v = "") :
    getAttrL (quirkAttrs a) "font-size" = some v := by
  have e1 : getAttrL (removeAttrL (removeAttrL a "x") "y") "font-size" = some v := by
    rw [getAttrL_removeAttrL_ne _ "y" "font-size" (by decide),
      getAttrL_removeAttrL_ne _ "x" "font-size" (by decide)]
    exact hv
  have e2 : getAttrL (setAttrL (removeAttrL (removeAttrL a "x") "y")
      "alignment-baseline" "text-before-edge") "font-size" = some v := by
    rw [getAttrL_setAttrL_ne _ _ _ _ (by decide : ¬ "alignment-baseline" = "font-size")]
    exact e1
  have t2 : truthyOpt (getAttrL (setAttrL (removeAttrL (removeAttrL a "x") "y")
      "alignment-baseline" "text-before-edge") "font-size") = true := by
    rw [e2]; simp [truthyOpt, hne]
  simp only [quirkAttrs]
  rw [t2]
  simp only [if_true]
  split_ifs <;>
    simp [getAttrL_setAttrL_ne _ _ _ _ (by decide : ¬ "font-family" = "font-size"), e2]

theorem getAttrL_quirkAttrs_font_family_of_truthy (a : List (String × String)) (v : String)
    (hv : getAttrL a "font-family" = some v) (hne : ¬ v = "") :
    getAttrL (quirkAttrs a) "font-family" = some v := by
  have e1 : getAttrL (removeAttrL (removeAttrL a "x") "y") "font-family" = some v := by
    rw [getAttrL_removeAttrL_ne _ "y" "font-family" (by decide),
      getAttrL_removeAttrL_ne _ "x" "font-family" (by decide)]
    exact hv
  have e2 : getAttrL (setAttrL (removeAttrL (removeAttrL a "x") "y")
      "alignment-baseline" "text-before-edge") "font-family" = some v := by
    rw [getAttrL_setAttrL_ne _ _ _ _ (by decide : ¬ "alignment-baseline" = "font-family")]
    exact e1
  simp only [quirkAttrs]
  split_ifs with c1 c2 <;>
    simp_all [getAttrL_setAttrL_ne _ _ _ _ (by decide : ¬ "font-size" = "font-family"),
      truthyOpt, e2]

theorem isElementNode_transformTextNode (t : Node) :
    isElementNode (transformTextNode t) = isElementNode t := by
  cases t with
  | text s => rfl
  | element n a cs =>
      simp only [transformTextNode]
      split_ifs <;> rfl

theorem childElementCount_transformTextList (cs : List Node) :
    childElementCount (transformTextList cs) = childElementCount cs := by
  induction cs with
  | nil => rfl
  | cons c cs ih =>
      simp only [transformTextList, childElementCount, ih,
        isElementNode_transformTextNode]

theorem transformTextList_of_no_elements (cs : List Node)
    (h : childElementCount cs = 0) : transformTextList cs = cs := by
  induction cs with
  | nil => rfl
  | cons c cs ih =>
      simp only [childElementCount] at h
      cases c with
      | element n a cc => simp [isElementNode] at h
      | text s =>
          simp only [isElementNode] at h
          simp only [transformTextList, transformTextNode]
          rw [ih (by omega)]

theorem transformTextNode_mkTspan (l : String) :
    transformTextNode (mkTspan l) = mkTspan l := by
  by_cases h : l = "" <;>
    simp [mkTspan, transformTextNode, transformTextList, h]

theorem transformTextList_map_mkTspan (lines : List String) :
    transformTextList (lines.map mkTspan) = lines.map mkTspan := by
  induction lines with
  | nil => rfl
  | cons l ls ih =>
      simp only [List.map, transformTextList, transformTextNode_mkTspan, ih]

theorem lineBreakGuard_false_on_tspans (lines : List String) :
    ¬ (¬ (textContentList (lines.map mkTspan) = "") ∧
        childElementCount (lines.map mkTspan) = 0) := by
  cases lines with
  | nil => simp [textContentList]
  | cons l ls =>
      intro hg
      have := hg.2
      simp [childElementCount, mkTspan, isElementNode] at this

mutual

theorem transformTextNode_idem : (t : Node) →
    transformTextNode (transformTextNode t) = transformTextNode t
  | Node.text s => rfl
  | Node.element n a cs => by
      by_cases hn : n = "text"
      · subst hn
        by_cases hg : ¬ (textContentList cs = "") ∧ childElementCount cs = 0
        · have e1 : transformTextNode (Node.element "text" a cs) =
              Node.element "text" (quirkAttrs a)
                ((splitOnNewlines (textContentList cs)).map mkTspan) := by
            simp [transformTextNode, hg]
          rw [e1]
          have e2 : transformTextNode (Node.element "text" (quirkAttrs a)
              ((splitOnNewlines (textContentList cs)).map mkTspan)) =
              Node.element "text" (quirkAttrs (quirkAttrs a))
                (transformTextList
                  ((splitOnNewlines (textContentList cs)).map mkTspan)) := by
            simp only [transformTextNode, if_pos]
            rw [if_neg (lineBreakGuard_false_on_tspans
              (splitOnNewlines (textContentList cs)))]
          rw [e2, transformTextList_map_mkTspan, quirkAttrs_idem]
        · have e1 : transformTextNode (Node.element "text" a cs) =
              Node.element "text" (quirkAttrs a) (transformTextList cs) := by
            simp [transformTextNode, hg]
          have hg2 : ¬ (¬ (textContentList (transformTextList cs) = "") ∧
              childElementCount (transformTextList cs) = 0) := by
            intro hc
            obtain ⟨hne, hz⟩ := hc
            rw [childElementCount_transformTextList] at hz
            rw [transformTextList_of_no_elements cs hz] at hne
            exact hg ⟨hne, hz⟩
          have e2 : transformTextNode (Node.element "text" (quirkAttrs a)
              (transformTextList cs)) =
              Node.element "text" (quirkAttrs (quirkAttrs a))
                (transformTextList (transformTextList cs)) := by
            simp only [transformTextNode, if_pos]
            rw [if_neg hg2]
          rw [e1, e2, transformTextList_idem cs, quirkAttrs_idem]
      · have e1 : transformTextNode (Node.element n a cs) =
            Node.element n a (transformTextList cs) := by
          simp [transformTextNode, hn]
        rw [e1]
        have e2 : transformTextNode (Node.element n a (transformTextList cs)) =
            Node.element n a (transformTextList (transformTextList cs)) := by
          simp [transformTextNode, hn]
        rw [e2, transformTextList_idem cs]

theorem transformTextList_idem : (cs : List Node) →
    transformTextList (transformTextList cs) = transformTextList cs
  | [] => rfl
  | c :: cs => by
      simp only [transformTextList]
      rw [transformTextNode_idem c, transformTextList_idem cs]

end

theorem amendedContribution_nonneg (a : List (String × String)) :
    0 ≤ amendedContribution a := by
  simp only [amendedContribution, jsMax_eq_max]
  refine le_max_of_le_left ?_
  split_ifs <;> norm_num

mutual

theorem amendedStrokeMax_nonneg : (t : Node) → 0 ≤ amendedStrokeMax t
  | Node.text _ => le_refl 0
  | Node.element n a cs => by
      simp only [amendedStrokeMax, jsMax_eq_max]
      exact le_max_of_le_left (amendedContribution_nonneg a)

theorem amendedStrokeMaxList_nonneg : (cs : List Node) → 0 ≤ amendedStrokeMaxList cs
  | [] => le_refl 0
  | c :: cs => by
      simp only [amendedStrokeMaxList, jsMax_eq_max]
      exact le_max_of_le_left (amendedStrokeMax_nonneg c)

end

mutual

theorem collectStrokeWidths_eq_amended : (t : Node) → ∀ acc : ℚ, 0 ≤ acc →
    collectStrokeWidths acc t = max acc (amendedStrokeMax t)
  | Node.text s, acc, h => by
      simp [collectStrokeWidths, amendedStrokeMax, max_eq_left h]
  | Node.element n a cs, acc, h => by
      have hL : (0 : ℚ) ≤ amendedStrokeMaxList cs := amendedStrokeMaxList_nonneg cs
      simp only [collectStrokeWidths, amendedStrokeMax, amendedContribution, jsMax_eq_max]
      by_cases c1 : truthyOpt (getAttrL a "stroke") <;>
        by_cases c2 : truthyOpt (getAttrL a "stroke-width") <;>
          simp only [c1, c2, Bool.false_eq_true, if_true, if_false, ite_true, ite_false]
      · rw [collectStrokeWidthsList_eq_amended cs (max (max acc 1)
          (jsNumberOr0 ((getAttrL a "stroke-width").getD "")))
          (le_trans h (le_trans (le_max_left acc 1) (le_max_left _ _)))]
        simp [max_assoc]
      · rw [collectStrokeWidthsList_eq_amended cs (max acc 1)
          (le_trans h (le_max_left acc 1))]
        have h10 : max (1 : ℚ) 0 = 1 := max_eq_left zero_le_one
        rw [h10, max_assoc]
      · rw [collectStrokeWidthsList_eq_amended cs (max acc
          (jsNumberOr0 ((getAttrL a "stroke-width").getD "")))
          (le_trans h (le_max_left _ _))]
        rw [max_assoc, max_assoc,
          max_eq_right (le_trans hL (le_max_right
            (jsNumberOr0 ((getAttrL a "stroke-width").getD ""))
            (amendedStrokeMaxList cs)))]
      · rw [collectStrokeWidthsList_eq_amended cs acc h]
        have h00 : max (0 : ℚ) 0 = 0 := max_self 0
        rw [h00]
        have h0L : max (0 : ℚ) (amendedStrokeMaxList cs) = amendedStrokeMaxList cs :=
          max_eq_right hL
        rw [h0L]

theorem collectStrokeWidthsList_eq_amended : (cs : List Node) → ∀ acc : ℚ, 0 ≤ acc →
    collectStrokeWidthsList acc cs = max acc (amendedStrokeMaxList cs)
  | [], acc, h => by
      simp [collectStrokeWidthsList, amendedStrokeMaxList, max_eq_left h]
  | c :: cs, acc, h => by
      simp only [collectStrokeWidthsList, amendedStrokeMaxList, jsMax_eq_max]
      have hc : 0 ≤ collectStrokeWidths acc c := by
        rw [collectStrokeWidths_eq_amended c acc h]
        exact le_trans h (le_max_left _ _)
      rw [collectStrokeWidthsList_eq_amended cs (collectStrokeWidths acc c) hc,
        collectStrokeWidths_eq_amended c acc h, max_assoc]

end

theorem findLargestStrokeWidth_eq_amended (t : Node) :
    findLargestStrokeWidth t = amendedStrokeMax t := by
  rw [findLargestStrokeWidth, collectStrokeWidths_eq_amended t 0 (le_refl 0)]
  exact max_eq_right (amendedStrokeMax_nonneg t)

theorem amendedStrokeMaxList_append (xs ys : List Node) :
    amendedStrokeMaxList (xs ++ ys) =
      max (amendedStrokeMaxList xs) (amendedStrokeMaxList ys) := by
  induction xs with
  | nil =>
      simp only [List.nil_append, amendedStrokeMaxList]
      exact (max_eq_right (amendedStrokeMaxList_nonneg ys)).symm
  | cons c cs ih =>
      simp only [List.cons_append, List.append_eq, amendedStrokeMaxList, jsMax_eq_max,
        ih, max_assoc]

theorem transformText_text_line_split (a : List (String × String)) (cs : List Node)
    (hne : ¬ (textContentList cs = "")) (hz : childElementCount cs = 0) :
    transformText (Node.element "text" a cs) =
      Node.element "text" (quirkAttrs a)
        ((splitOnNewlines (textContentList cs)).map mkTspan) := by
  simp [transformText, convertFonts, transformTextNode, hne, hz]

theorem nodeGetAttr_transformText_text (a : List (String × String)) (cs : List Node)
    (k : String) :
    nodeGetAttr (transformText (Node.element "text" a cs)) k =
      getAttrL (quirkAttrs a) k := by
  simp only [transformText, convertFonts, transformTextNode]
  split_ifs <;> rfl

/-- C1 (amended): the stroke width computed per measurement pass equals the
maximum over all elements (including the root) of the larger of two
contributions: 1 when a `stroke` attribute with a non-empty value is
present (else 0), and the JavaScript numeric value of `stroke-width` (NaN
taken as 0) when that attribute is present with a non-empty value (else
0).  In particular a `stroke` contributes its 1 even when an explicit
`stroke-width` is also present, rather than deferring to it. -/
theorem claim1_stroke_width_formula (t : Node) :
    findLargestStrokeWidth t = amendedStrokeMax t :=
  findLargestStrokeWidth_eq_amended t

/-- C1 counterexample: on a root with stroke="red" and stroke-width="abc"
the code computes 1, while the claim's formula (1 only when no explicit
stroke-width is present; an unparseable stroke-width counting 0) gives 0. -/
theorem claim1_counterexample :
    findLargestStrokeWidth
        (Node.element "svg" [("stroke", "red"), ("stroke-width", "abc")] []) = 1
    ∧ claimStrokeMax
        (Node.element "svg" [("stroke", "red"), ("stroke-width", "abc")] []) = 0
    ∧ ¬ ((1 : ℚ) = 0) := by
  decide

/-- C4: the text-quirks normalization pass is idempotent: a second
application to an already-normalized tree is the identity. -/
theorem claim4_normalization_idempotent (t : Node) :
    transformText (transformText t) = transformText t := by
  simp only [transformText, convertFonts]
  exact transformTextNode_idem t

/-- C5: a text element whose text content is "a\nb\nc" and which has zero
child elements normalizes to exactly three tspan line nodes carrying "a",
"b", "c" in order, each with x="0" and dy="1.2em", the original text
content being cleared; and in general every newline-separated line (empty
lines included) becomes one line node carrying that line. -/
theorem claim5_line_split (a : List (String × String)) (cs : List Node)
    (h1 : textContentList cs = "a\nb\nc") (h2 : childElementCount cs = 0) :
    transformText (Node.element "text" a cs) =
      Node.element "text" (quirkAttrs a)
        [Node.element "tspan" [("x", "0"), ("dy", "1.2em")] [Node.text "a"],
         Node.element "tspan" [("x", "0"), ("dy", "1.2em")] [Node.text "b"],
         Node.element "tspan" [("x", "0"), ("dy", "1.2em")] [Node.text "c"]]
    ∧ (∀ (a2 : List (String × String)) (cs2 : List Node),
        ¬ (textContentList cs2 = "") → childElementCount cs2 = 0 →
        transformText (Node.element "text" a2 cs2) =
          Node.element "text" (quirkAttrs a2)
            ((splitOnNewlines (textContentList cs2)).map mkTspan))
    ∧ textContent (mkTspan "") = "" := by
  refine ⟨?_, ?_, rfl⟩
  · rw [transformText_text_line_split a cs (by rw [h1]; decide) h2, h1]
    rfl
  · intro a2 cs2 hne hz
    exact transformText_text_line_split a2 cs2 hne hz

/-- C5 witness at a concrete text element holding the text "a\nb\nc". -/
theorem claim5_witness :
    textContentList [Node.text "a\nb\nc"] = "a\nb\nc"
    ∧ childElementCount [Node.text "a\nb\nc"] = 0
    ∧ transformText (Node.element "text" [] [Node.text "a\nb\nc"]) =
        Node.element "text" (quirkAttrs [])
          [Node.element "tspan" [("x", "0"), ("dy", "1.2em")] [Node.text "a"],
           Node.element "tspan" [("x", "0"), ("dy", "1.2em")] [Node.text "b"],
           Node.element "tspan" [("x", "0"), ("dy", "1.2em")] [Node.text "c"]] :=
  ⟨rfl, rfl, (claim5_line_split [] [Node.text "a\nb\nc"] rfl rfl).1⟩

/-- C6 (amended): a pre-existing `font-size` or `font-family` attribute
whose value is non-empty is preserved verbatim by the normalization pass;
the code keys the default on JavaScript truthiness of `getAttribute`, so a
present attribute with an empty value is re-defaulted. -/
theorem claim6_font_attrs_preserved (a : List (String × String)) (cs : List Node) :
    (∀ v, getAttrL a "font-size" = some v → ¬ (v = "") →
      nodeGetAttr (transformText (Node.element "text" a cs)) "font-size" = some v)
    ∧ (∀ v, getAttrL a "font-family" = some v → ¬ (v = "") →
      nodeGetAttr (transformText (Node.element "text" a cs)) "font-family" = some v) := by
  constructor
  · intro v hv hne
    rw [nodeGetAttr_transformText_text]
    exact getAttrL_quirkAttrs_font_size_of_truthy a v hv hne
  · intro v hv hne
    rw [nodeGetAttr_transformText_text]
    exact getAttrL_quirkAttrs_font_family_of_truthy a v hv hne

/-- C6 witness at a concrete text element with explicit non-empty font
attributes. -/
theorem claim6_witness :
    nodeGetAttr (transformText (Node.element "text"
        [("font-size", "16"), ("font-family", "serif")] [])) "font-size" = some "16"
    ∧ nodeGetAttr (transformText (Node.element "text"
        [("font-size", "16"), ("font-family", "serif")] [])) "font-family" =
        some "serif" :=
  ⟨(claim6_font_attrs_preserved [("font-size", "16"), ("font-family", "serif")] []).1
      "16" (by decide) (by decide),
   (claim6_font_attrs_preserved [("font-size", "16"), ("font-family", "serif")] []).2
      "serif" (by decide) (by decide)⟩

/-- C6 counterexample: a text element with the present-but-empty attribute
font-size="" has it overridden to "14" by normalization, so the claim's
unqualified "preserved verbatim" fails. -/
theorem claim6_counterexample :
    getAttrL [("font-size", "")] "font-size" = some ""
    ∧ nodeGetAttr (transformText (Node.element "text" [("font-size", "")] []))
        "font-size" = some "14"
    ∧ ¬ ((some "14" : Option String) = some "") := by
  decide

theorem dropLast_append_single (l : List Node) (x : Node) :
    (l ++ [x]).dropLast = l := by
  simp

theorem transformMeasurements_cachedImage (serialize : XmlDoc → String)
    (parse : String → XmlDoc) (numStr : ℚ → String)
    (oracle : Node → Option Measurement) (st : RendererState) :
    (transformMeasurements serialize parse numStr oracle st).1.cachedImage =
      st.cachedImage := by
  simp only [transformMeasurements]
  cases h : oracle st.svgTag <;> simp

/-- C8: the temporary attachment of the tree to the live document body is
released on every exit path of the measurement step: whatever the oracle
does (returns a bounding box or throws), the body child list after
`_transformMeasurements` equals the one before, the appended span having
been removed again by the finally block. -/
theorem claim8_attachment_released (serialize : XmlDoc → String)
    (parse : String → XmlDoc) (numStr : ℚ → String)
    (oracle : Node → Option Measurement) (st : RendererState) :
    (transformMeasurements serialize parse numStr oracle st).1.body = st.body := by
  simp only [transformMeasurements]
  cases h : oracle st.svgTag <;> simp [dropLast_append_single]

/-- C10 (amended): the cached raster image is invalidated at the start of
load, and after any load, in particular a failed one, the pipeline holds
no cached raster; the previous Document, however, is replaced by the newly
parsed (and possibly normalized) document even when the load fails. -/
theorem claim10_cache_invalidated (parse : String → XmlDoc)
    (serialize : XmlDoc → String) (numStr : ℚ → String)
    (oracle : Node → Option Measurement) (st : RendererState) (s : String) :
    (loadString parse serialize numStr oracle st s).1.cachedImage = none := by
  simp only [loadString]
  split_ifs with hc
  · rfl
  · rw [transformMeasurements_cachedImage]

/-- Concrete renderer state holding a cached raster and a document whose
root is a g element, used to exhibit failed loads. -/
def exampleState : RendererState :=
  RendererState.mk (XmlDoc.mk [Node.element "g" [] []]) (Node.element "g" [] [])
    (Measurement.mk 0 0 0 0) (some ()) []

/-- C10 counterexample: a load that fails validation still replaces the
stored document with the newly parsed one (svg-renderer.js assigns
this._svgDom on line 75, before the validity check on lines 76-78), so
"the previous Document was not replaced" is false. -/
theorem claim10_counterexample :
    (loadString (fun _ => XmlDoc.mk [Node.element "notsvg" [] []]) (fun _ => "")
        (fun _ => "") (fun _ => none) exampleState "y").2 =
      some LoadError.invalidDocument
    ∧ (loadString (fun _ => XmlDoc.mk [Node.element "notsvg" [] []]) (fun _ => "")
        (fun _ => "") (fun _ => none) exampleState "y").1.cachedImage = none
    ∧ ¬ ((XmlDoc.documentElement (loadString
          (fun _ => XmlDoc.mk [Node.element "notsvg" [] []]) (fun _ => "")
          (fun _ => "") (fun _ => none) exampleState "y").1.svgDom).localName =
        (XmlDoc.documentElement exampleState.svgDom).localName) := by
  decide

theorem transformMeasurements_failure_state (serialize : XmlDoc → String)
    (parse : String → XmlDoc) (numStr : ℚ → String)
    (oracle : Node → Option Measurement) (st : RendererState) (err : LoadError)
    (h : (transformMeasurements serialize parse numStr oracle st).2 = some err) :
    (transformMeasurements serialize parse numStr oracle st).1.measurements =
      st.measurements
    ∧ (transformMeasurements serialize parse numStr oracle st).1.svgDom = st.svgDom := by
  cases ho : oracle st.svgTag with
  | none =>
      have e : transformMeasurements serialize parse numStr oracle st =
          ({ st with
              body := (st.body ++ [Node.element "span" [] [st.svgTag]]).dropLast },
            some LoadError.measurementFailure) := by
        simp only [transformMeasurements]
        rw [ho]
      rw [e]
      exact ⟨rfl, rfl⟩
  | some bb =>
      have e : (transformMeasurements serialize parse numStr oracle st).2 = none := by
        simp only [transformMeasurements]
        rw [ho]
      rw [e] at h
      simp at h

theorem transformMeasurements_ne_invalid (serialize : XmlDoc → String)
    (parse : String → XmlDoc) (numStr : ℚ → String)
    (oracle : Node → Option Measurement) (st : RendererState) :
    ¬ ((transformMeasurements serialize parse numStr oracle st).2 =
        some LoadError.invalidDocument) := by
  cases ho : oracle st.svgTag with
  | none =>
      have e : (transformMeasurements serialize parse numStr oracle st).2 =
          some LoadError.measurementFailure := by
        simp only [transformMeasurements]
        rw [ho]
      rw [e]
      simp
  | some bb =>
      have e : (transformMeasurements serialize parse numStr oracle st).2 = none := by
        simp only [transformMeasurements]
        rw [ho]
      rw [e]
      simp

/-- C2 (amended): when load fails at any stage, the previous Measurement
remains current and no new Measurement is stored; the pipeline's current
Document, however, does not remain the previous one: the newly parsed
document (on validation failure) or the normalized but unmeasured document
(on measurement failure) is retained as the current Document. -/
theorem claim2_failure_state (parse : String → XmlDoc) (serialize : XmlDoc → String)
    (numStr : ℚ → String) (oracle : Node → Option Measurement)
    (st : RendererState) (s : String) (err : LoadError)
    (h : (loadString parse serialize numStr oracle st s).2 = some err) :
    (loadString parse serialize numStr oracle st s).1.measurements = st.measurements
    ∧ ((loadString parse serialize numStr oracle st s).1.svgDom = parse s
      ∨ (loadString parse serialize numStr oracle st s).1.svgDom =
          XmlDoc.withDocumentElement (parse s)
            (transformText (XmlDoc.documentElement (parse s)))) := by
  by_cases hc : (parse s).childNodes.length < 1 ∨
      ¬ (XmlDoc.documentElement (parse s)).localName = "svg"
  · have e : loadString parse serialize numStr oracle st s =
        ({ st with cachedImage := none, svgDom := parse s },
          some LoadError.invalidDocument) := by
      simp only [loadString]
      rw [if_pos hc]
    rw [e]
    exact ⟨rfl, Or.inl rfl⟩
  · have e : loadString parse serialize numStr oracle st s =
        transformMeasurements serialize parse numStr oracle
          (RendererState.mk
            (XmlDoc.withDocumentElement (parse s)
              (transformText (XmlDoc.documentElement (parse s))))
            (transformText (XmlDoc.documentElement (parse s)))
            st.measurements none st.body) := by
      simp only [loadString]
      rw [if_neg hc]
    rw [e] at h ⊢
    have hm := transformMeasurements_failure_state serialize parse numStr oracle _ err h
    exact ⟨hm.1, Or.inr hm.2⟩

/-- C2 witness: a concrete failing load, for which the previous Measurement
indeed remains current. -/
theorem claim2_witness :
    (loadString (fun _ => XmlDoc.mk [Node.element "notsvg" [] []]) (fun _ => "")
        (fun _ => "") (fun _ => none) exampleState "z").2 =
      some LoadError.invalidDocument
    ∧ ((loadString (fun _ => XmlDoc.mk [Node.element "notsvg" [] []]) (fun _ => "")
          (fun _ => "") (fun _ => none) exampleState "z").1.measurements =
        exampleState.measurements
      ∧ ((loadString (fun _ => XmlDoc.mk [Node.element "notsvg" [] []]) (fun _ => "")
            (fun _ => "") (fun _ => none) exampleState "z").1.svgDom =
          (fun (_ : String) => XmlDoc.mk [Node.element "notsvg" [] []]) "z"
        ∨ (loadString (fun _ => XmlDoc.mk [Node.element "notsvg" [] []]) (fun _ => "")
            (fun _ => "") (fun _ => none) exampleState "z").1.svgDom =
          XmlDoc.withDocumentElement
            ((fun (_ : String) => XmlDoc.mk [Node.element "notsvg" [] []]) "z")
            (transformText (XmlDoc.documentElement
              ((fun (_ : String) => XmlDoc.mk [Node.element "notsvg" [] []]) "z"))))) :=
  ⟨rfl, claim2_failure_state (fun _ => XmlDoc.mk [Node.element "notsvg" [] []])
    (fun _ => "") (fun _ => "") (fun _ => none) exampleState "z"
    LoadError.invalidDocument rfl⟩

/-- C2 counterexample: a load whose measurement step fails leaves the
pipeline holding the new (normalized, unmeasured) document in place of the
previous one, so "the pipeline's current state is unchanged" is false. -/
theorem claim2_counterexample :
    (loadString (fun _ => XmlDoc.mk [Node.element "svg" [] []]) (fun _ => "")
        (fun _ => "") (fun _ => none) exampleState "x").2 =
      some LoadError.measurementFailure
    ∧ ¬ ((XmlDoc.documentElement (loadString
          (fun _ => XmlDoc.mk [Node.element "svg" [] []]) (fun _ => "")
          (fun _ => "") (fun _ => none) exampleState "x").1.svgDom).localName =
        (XmlDoc.documentElement exampleState.svgDom).localName) := by
  decide

/-- C7: load fails with InvalidDocument exactly when the parse yields fewer
than one node or the root element's tag is not svg; in particular both
rejection examples fail this way, the parser returning a non-svg root for
each (a notsvg element, and the browser's parsererror document). -/
theorem claim7_invalid_document_iff (parse : String → XmlDoc)
    (serialize : XmlDoc → String) (numStr : ℚ → String)
    (oracle : Node → Option Measurement) (st : RendererState)
    (h1 : ¬ (XmlDoc.documentElement (parse "<notsvg/>")).localName = "svg")
    (h2 : ¬ (XmlDoc.documentElement (parse "not xml at all <<<")).localName = "svg") :
    (∀ s, (loadString parse serialize numStr oracle st s).2 =
        some LoadError.invalidDocument
      ↔ ((parse s).childNodes.length < 1 ∨
          ¬ (XmlDoc.documentElement (parse s)).localName = "svg"))
    ∧ (loadString parse serialize numStr oracle st "<notsvg/>").2 =
        some LoadError.invalidDocument
    ∧ (loadString parse serialize numStr oracle st "not xml at all <<<").2 =
        some LoadError.invalidDocument := by
  have main : ∀ s, (loadString parse serialize numStr oracle st s).2 =
      some LoadError.invalidDocument
      ↔ ((parse s).childNodes.length < 1 ∨
          ¬ (XmlDoc.documentElement (parse s)).localName = "svg") := by
    intro s
    constructor
    · intro h
      by_contra hc
      simp only [loadString] at h
      rw [if_neg hc] at h
      exact transformMeasurements_ne_invalid serialize parse numStr oracle _ h
    · intro hc
      simp only [loadString]
      rw [if_pos hc]
  exact ⟨main, (main "<notsvg/>").mpr (Or.inr h1),
    (main "not xml at all <<<").mpr (Or.inr h2)⟩

/-- Concrete parser model: the first rejection example parses to a document
rooted at a notsvg element, anything else to a browser parsererror
document. -/
def exampleParse : String → XmlDoc := fun s =>
  if s = "<notsvg/>" then XmlDoc.mk [Node.element "notsvg" [] []]
  else XmlDoc.mk [Node.element "parsererror" [] []]

/-- C7 witness: both rejection examples fail with InvalidDocument under the
concrete parser model. -/
theorem claim7_witness :
    (loadString exampleParse (fun _ => "") (fun _ => "") (fun _ => none)
        exampleState "<notsvg/>").2 = some LoadError.invalidDocument
    ∧ (loadString exampleParse (fun _ => "") (fun _ => "") (fun _ => none)
        exampleState "not xml at all <<<").2 = some LoadError.invalidDocument :=
  ⟨(claim7_invalid_document_iff exampleParse (fun _ => "") (fun _ => "")
      (fun _ => none) exampleState (by decide) (by decide)).2.1,
   (claim7_invalid_document_iff exampleParse (fun _ => "") (fun _ => "")
      (fun _ => none) exampleState (by decide) (by decide)).2.2⟩

theorem isElementNode_documentElement (d : XmlDoc) :
    isElementNode (XmlDoc.documentElement d) = true := by
  simp only [XmlDoc.documentElement]
  cases hf : d.childNodes.find? isElementNode with
  | none => rfl
  | some e =>
      simp only [Option.getD]
      exact List.find?_some hf

theorem isElementNode_nodeSetAttr (nd : Node) (k v : String) :
    isElementNode (nodeSetAttr nd k v) = isElementNode nd := by
  cases nd <;> rfl

theorem nodeGetAttr_nodeSetAttr_same (nd : Node) (k v : String)
    (h : isElementNode nd = true) :
    nodeGetAttr (nodeSetAttr nd k v) k = some v := by
  cases nd with
  | element n a cs => simp [nodeSetAttr, nodeGetAttr, getAttrL_setAttrL_same]
  | text s => simp [isElementNode] at h

theorem nodeGetAttr_nodeSetAttr_ne (nd : Node) (k v k2 : String) (hk : ¬ k = k2) :
    nodeGetAttr (nodeSetAttr nd k v) k2 = nodeGetAttr nd k2 := by
  cases nd with
  | element n a cs => simp [nodeSetAttr, nodeGetAttr, getAttrL_setAttrL_ne _ _ _ _ hk]
  | text s => rfl

/-- Half the largest stroke width found on the re-parsed document of the
current measurement pass (svg-renderer.js line 217). -/
def measuredHalfStroke (serialize : XmlDoc → String) (parse : String → XmlDoc)
    (st : RendererState) : ℚ :=
  findLargestStrokeWidth (XmlDoc.documentElement (parse (serialize st.svgDom))) / 2

/-- The re-parsed root tag after the width, height and viewBox attributes
of the current pass were written onto it (svg-renderer.js lines 224-227). -/
def measuredTag (serialize : XmlDoc → String) (parse : String → XmlDoc)
    (numStr : ℚ → String) (st : RendererState) (bbox : Measurement) : Node :=
  nodeSetAttr (nodeSetAttr (nodeSetAttr
      (XmlDoc.documentElement (parse (serialize st.svgDom)))
      "width" (numStr (bbox.width + measuredHalfStroke serialize parse st * 2)))
      "height" (numStr (bbox.height + measuredHalfStroke serialize parse st * 2)))
      "viewBox" (numStr (bbox.x - measuredHalfStroke serialize parse st) ++ " " ++
        numStr (bbox.y - measuredHalfStroke serialize parse st) ++ " " ++
        numStr (bbox.width + measuredHalfStroke serialize parse st * 2) ++ " " ++
        numStr (bbox.height + measuredHalfStroke serialize parse st * 2))

theorem transformMeasurements_success (serialize : XmlDoc → String)
    (parse : String → XmlDoc) (numStr : ℚ → String)
    (oracle : Node → Option Measurement) (st : RendererState) (bbox : Measurement)
    (h : oracle st.svgTag = some bbox) :
    transformMeasurements serialize parse numStr oracle st =
      (RendererState.mk
        (XmlDoc.withDocumentElement (parse (serialize st.svgDom))
          (measuredTag serialize parse numStr st bbox))
        (measuredTag serialize parse numStr st bbox)
        (Measurement.mk
          (bbox.x - measuredHalfStroke serialize parse st)
          (bbox.y - measuredHalfStroke serialize parse st)
          (bbox.width + measuredHalfStroke serialize parse st * 2)
          (bbox.height + measuredHalfStroke serialize parse st * 2))
        st.cachedImage
        ((st.body ++ [Node.element "span" [] [st.svgTag]]).dropLast), none) := by
  simp only [transformMeasurements, measuredTag, measuredHalfStroke]
  rw [h]

/-- C3: on a successful measurement pass with oracle bounding box bbox and
h half of the computed stroke width, the stored Measurement is x - h,
y - h, width + 2h, height + 2h, the root's width and height attributes
carry those same width and height, its viewBox attribute is the string
"x y width height" built from the same four values, and no error is
raised. -/
theorem claim3_measurement_formula (serialize : XmlDoc → String)
    (parse : String → XmlDoc) (numStr : ℚ → String)
    (oracle : Node → Option Measurement) (st : RendererState) (bbox : Measurement)
    (h : oracle st.svgTag = some bbox) :
    (transformMeasurements serialize parse numStr oracle st).1.measurements =
      Measurement.mk
        (bbox.x - measuredHalfStroke serialize parse st)
        (bbox.y - measuredHalfStroke serialize parse st)
        (bbox.width + 2 * measuredHalfStroke serialize parse st)
        (bbox.height + 2 * measuredHalfStroke serialize parse st)
    ∧ nodeGetAttr (transformMeasurements serialize parse numStr oracle st).1.svgTag
        "width" =
        some (numStr (bbox.width + 2 * measuredHalfStroke serialize parse st))
    ∧ nodeGetAttr (transformMeasurements serialize parse numStr oracle st).1.svgTag
        "height" =
        some (numStr (bbox.height + 2 * measuredHalfStroke serialize parse st))
    ∧ nodeGetAttr (transformMeasurements serialize parse numStr oracle st).1.svgTag
        "viewBox" =
        some (numStr (bbox.x - measuredHalfStroke serialize parse st) ++ " " ++
          numStr (bbox.y - measuredHalfStroke serialize parse st) ++ " " ++
          numStr (bbox.width + 2 * measuredHalfStroke serialize parse st) ++ " " ++
          numStr (bbox.height + 2 * measuredHalfStroke serialize parse st))
    ∧ (transformMeasurements serialize parse numStr oracle st).2 = none := by
  rw [transformMeasurements_success serialize parse numStr oracle st bbox h]
  rw [mul_comm (measuredHalfStroke serialize parse st) 2]
  refine ⟨rfl, ?_, ?_, ?_, rfl⟩
  · simp only [measuredTag, mul_comm (measuredHalfStroke serialize parse st) 2]
    rw [nodeGetAttr_nodeSetAttr_ne _ "viewBox" _ "width" (by decide)]
    rw [nodeGetAttr_nodeSetAttr_ne _ "height" _ "width" (by decide)]
    rw [nodeGetAttr_nodeSetAttr_same _ "width" _ (isElementNode_documentElement _)]
  · simp only [measuredTag, mul_comm (measuredHalfStroke serialize parse st) 2]
    rw [nodeGetAttr_nodeSetAttr_ne _ "viewBox" _ "height" (by decide)]
    rw [nodeGetAttr_nodeSetAttr_same _ "height" _ ?_]
    rw [isElementNode_nodeSetAttr]
    exact isElementNode_documentElement _
  · simp only [measuredTag, mul_comm (measuredHalfStroke serialize parse st) 2]
    rw [nodeGetAttr_nodeSetAttr_same _ "viewBox" _ ?_]
    rw [isElementNode_nodeSetAttr, isElementNode_nodeSetAttr]
    exact isElementNode_documentElement _

/-- C3 witness at a concrete state and oracle. -/
theorem claim3_witness :
    (fun (_ : Node) => some (Measurement.mk 1 2 3 4)) exampleState.svgTag =
      some (Measurement.mk 1 2 3 4)
    ∧ (transformMeasurements (fun _ => "") (fun _ => XmlDoc.mk [Node.element "svg" [] []])
        (fun _ => "q") (fun _ => some (Measurement.mk 1 2 3 4))
        exampleState).1.measurements =
      Measurement.mk
        (1 - measuredHalfStroke (fun _ => "")
          (fun _ => XmlDoc.mk [Node.element "svg" [] []]) exampleState)
        (2 - measuredHalfStroke (fun _ => "")
          (fun _ => XmlDoc.mk [Node.element "svg" [] []]) exampleState)
        (3 + 2 * measuredHalfStroke (fun _ => "")
          (fun _ => XmlDoc.mk [Node.element "svg" [] []]) exampleState)
        (4 + 2 * measuredHalfStroke (fun _ => "")
          (fun _ => XmlDoc.mk [Node.element "svg" [] []]) exampleState) :=
  ⟨rfl, (claim3_measurement_formula (fun _ => "")
    (fun _ => XmlDoc.mk [Node.element "svg" [] []]) (fun _ => "q")
    (fun _ => some (Measurement.mk 1 2 3 4)) exampleState
    (Measurement.mk 1 2 3 4) rfl).1⟩

/-- C9: measuring a document extended by one element carrying
stroke-width N, with N above the document's current maximum stroke width
and the oracle's bounding box held equal, yields a Measurement whose width
and height each exceed those of the unextended document by exactly
2 * (N/2 - oldHalf), oldHalf being half the previous maximum. -/
theorem claim9_stroke_monotonicity (serialize : XmlDoc → String)
    (parse : String → XmlDoc) (numStr : ℚ → String)
    (oracle : Node → Option Measurement)
    (n m s : String) (a : List (String × String)) (cs : List Node) (N : ℚ)
    (d d2 : XmlDoc) (meas0 : Measurement) (ci : Option Unit) (body : List Node)
    (bb : Measurement)
    (hs : ¬ (s = "")) (hN : jsNumber s = some N)
    (hgt : findLargestStrokeWidth (Node.element n a cs) < N)
    (hrt : XmlDoc.documentElement (parse (serialize d)) = Node.element n a cs)
    (hrt2 : XmlDoc.documentElement (parse (serialize d2)) =
      Node.element n a (cs ++ [Node.element m [("stroke-width", s)] []]))
    (ho : oracle (Node.element n a cs) = some bb)
    (ho2 : oracle
      (Node.element n a (cs ++ [Node.element m [("stroke-width", s)] []])) =
      some bb) :
    (transformMeasurements serialize parse numStr oracle
        (RendererState.mk d2
          (Node.element n a (cs ++ [Node.element m [("stroke-width", s)] []]))
          meas0 ci body)).1.measurements.width =
      (transformMeasurements serialize parse numStr oracle
        (RendererState.mk d (Node.element n a cs) meas0 ci body)).1.measurements.width
      + 2 * (N / 2 - findLargestStrokeWidth (Node.element n a cs) / 2)
    ∧ (transformMeasurements serialize parse numStr oracle
        (RendererState.mk d2
          (Node.element n a (cs ++ [Node.element m [("stroke-width", s)] []]))
          meas0 ci body)).1.measurements.height =
      (transformMeasurements serialize parse numStr oracle
        (RendererState.mk d (Node.element n a cs) meas0 ci body)).1.measurements.height
      + 2 * (N / 2 - findLargestStrokeWidth (Node.element n a cs) / 2) := by
  have hfr : 0 ≤ findLargestStrokeWidth (Node.element n a cs) := by
    rw [findLargestStrokeWidth_eq_amended]
    exact amendedStrokeMax_nonneg _
  have h0N : 0 ≤ N := le_of_lt (lt_of_le_of_lt hfr hgt)
  have he : amendedStrokeMax (Node.element m [("stroke-width", s)] []) = N := by
    simp only [amendedStrokeMax, amendedStrokeMaxList, amendedContribution,
      jsMax_eq_max, jsNumberOr0]
    simp only [getAttrL, truthyOpt]
    simp [hs, hN, h0N]
  have hM : amendedStrokeMax (Node.element n a cs) < N := by
    rw [← findLargestStrokeWidth_eq_amended]
    exact hgt
  have hr2 : findLargestStrokeWidth
      (Node.element n a (cs ++ [Node.element m [("stroke-width", s)] []])) = N := by
    rw [findLargestStrokeWidth_eq_amended]
    simp only [amendedStrokeMax, jsMax_eq_max, amendedStrokeMaxList_append]
    have hl : amendedStrokeMaxList [Node.element m [("stroke-width", s)] []] = N := by
      simp only [amendedStrokeMaxList, jsMax_eq_max, he]
      exact max_eq_left h0N
    rw [hl, ← max_assoc]
    have hroot : max (amendedContribution a) (amendedStrokeMaxList cs) =
        amendedStrokeMax (Node.element n a cs) := by
      simp [amendedStrokeMax, jsMax_eq_max]
    rw [hroot]
    exact max_eq_right (le_of_lt hM)
  have e1 := transformMeasurements_success serialize parse numStr oracle
    (RendererState.mk d (Node.element n a cs) meas0 ci body) bb ho
  have e2 := transformMeasurements_success serialize parse numStr oracle
    (RendererState.mk d2
      (Node.element n a (cs ++ [Node.element m [("stroke-width", s)] []]))
      meas0 ci body) bb ho2
  have hm1 : measuredHalfStroke serialize parse
      (RendererState.mk d (Node.element n a cs) meas0 ci body) =
      findLargestStrokeWidth (Node.element n a cs) / 2 := by
    simp only [measuredHalfStroke]
    rw [hrt]
  have hm2 : measuredHalfStroke serialize parse
      (RendererState.mk d2
        (Node.element n a (cs ++ [Node.element m [("stroke-width", s)] []]))
        meas0 ci body) = N / 2 := by
    simp only [measuredHalfStroke]
    rw [hrt2, hr2]
  rw [e1, e2]
  dsimp only
  rw [hm1, hm2]
  constructor
  · ring
  · ring

/-- Concrete unextended root: an empty svg element. -/
def exampleRootA : Node := Node.element "svg" [] []

/-- Concrete extended root: the same svg element with one rect child
carrying stroke-width 3. -/
def exampleRootB : Node :=
  Node.element "svg" [] ([] ++ [Node.element "rect" [("stroke-width", "3")] []])

/-- Concrete serializer model distinguishing the two documents by the
child count of their root. -/
def exampleSerialize : XmlDoc → String := fun dd =>
  match XmlDoc.documentElement dd with
  | Node.element _ _ cc => if cc.length = 0 then "A" else "B"
  | Node.text _ => "A"

/-- Concrete parser model: the round trip of each example document. -/
def exampleParse2 : String → XmlDoc := fun str =>
  if str = "A" then XmlDoc.mk [Node.element "svg" [] []]
  else XmlDoc.mk
    [Node.element "svg" [] ([] ++ [Node.element "rect" [("stroke-width", "3")] []])]

/-- C9 witness: concrete documents, parser, serializer and oracle for
which extending by a rect of stroke-width 3 grows width and height by
exactly 2 * (3/2 - 0). -/
theorem claim9_witness :
    (¬ ("3" = "") ∧ jsNumber "3" = some 3
      ∧ findLargestStrokeWidth (Node.element "svg" [] []) < 3)
    ∧ ((transformMeasurements exampleSerialize exampleParse2 (fun _ => "")
          (fun _ => some (Measurement.mk 0 0 5 6))
          (RendererState.mk (XmlDoc.mk [exampleRootB])
            (Node.element "svg" []
              ([] ++ [Node.element "rect" [("stroke-width", "3")] []]))
            (Measurement.mk 0 0 0 0) none [])).1.measurements.width =
        (transformMeasurements exampleSerialize exampleParse2 (fun _ => "")
          (fun _ => some (Measurement.mk 0 0 5 6))
          (RendererState.mk (XmlDoc.mk [exampleRootA]) (Node.element "svg" [] [])
            (Measurement.mk 0 0 0 0) none [])).1.measurements.width
        + 2 * (3 / 2 - findLargestStrokeWidth (Node.element "svg" [] []) / 2)
      ∧ (transformMeasurements exampleSerialize exampleParse2 (fun _ => "")
          (fun _ => some (Measurement.mk 0 0 5 6))
          (RendererState.mk (XmlDoc.mk [exampleRootB])
            (Node.element "svg" []
              ([] ++ [Node.element "rect" [("stroke-width", "3")] []]))
            (Measurement.mk 0 0 0 0) none [])).1.measurements.height =
        (transformMeasurements exampleSerialize exampleParse2 (fun _ => "")
          (fun _ => some (Measurement.mk 0 0 5 6))
          (RendererState.mk (XmlDoc.mk [exampleRootA]) (Node.element "svg" [] [])
            (Measurement.mk 0 0 0 0) none [])).1.measurements.height
        + 2 * (3 / 2 - findLargestStrokeWidth (Node.element "svg" [] []) / 2)) :=
  ⟨⟨by decide, by decide, by decide⟩,
   claim9_stroke_monotonicity exampleSerialize exampleParse2 (fun _ => "")
     (fun _ => some (Measurement.mk 0 0 5 6)) "svg" "rect" "3" [] [] 3
     (XmlDoc.mk [exampleRootA]) (XmlDoc.mk [exampleRootB]) (Measurement.mk 0 0 0 0)
     none [] (Measurement.mk 0 0 5 6)
     (by decide) (by decide) (by decide) rfl rfl rfl rfl⟩

end SvgQuirks
